import Mathlib

/-!
Verification of the Flask REST API in `part-4/app.py` (books/authors CRUD).

The store is modelled as lists of authors and books; each Flask route handler
becomes a function from (store, request data) to (response, store).  SQLAlchemy
column constraints that the database enforces at `db.session.commit()` — the
UNIQUE constraints on `Book.isbn` (line 38) and `Author.name` (line 59) — are
modelled by `commitOk`: a commit that would violate them raises an
IntegrityError in Python, which surfaces as an HTTP 500 with the transaction
not applied; we model that as a 500 response with the store unchanged.
Python `KeyError` (a subscript on a missing JSON key) is modelled by `Except`.
-/

namespace Part4

/-- One row of the `author` table: `id` (PK), `name` (unique, not null),
`city` (not null). -/
structure Author where
  id : Nat
  name : String
  city : String
deriving Repr, DecidableEq

/-- One row of the `book` table: `id` (PK), `title` (not null), `year`
(nullable), `isbn` (nullable, unique), `created_at` (set at creation),
`author_id` (FK to author, not null). `created_at` is an abstract timestamp. -/
structure Book where
  id : Nat
  title : String
  year : Option Int
  isbn : Option String
  created_at : Nat
  author_id : Nat
deriving Repr, DecidableEq

/-- The relational store backing the app: the two tables, in row order. -/
structure Store where
  authors : List Author
  books : List Book
deriving Repr, DecidableEq

/-- The `author` sub-object of `B_to_dict`: `{'id': ..., 'name': ...}` from
`self.author_ref`.  `none` corresponds to a dangling FK, on which Python
would raise; it never occurs in well-formed stores. -/
def authorSummary (s : Store) (aid : Nat) : Option (Nat × String) :=
  (s.authors.find? (fun a => a.id == aid)).map (fun a => (a.id, a.name))

/-- JSON shape produced by `Book.B_to_dict`. -/
structure BookJson where
  id : Nat
  title : String
  year : Option Int
  isbn : Option String
  author : Option (Nat × String)
  created_at : Option Nat
deriving Repr, DecidableEq

/-- `Book.B_to_dict` (app.py lines 44-55). -/
def B_to_dict (s : Store) (b : Book) : BookJson :=
  { id := b.id, title := b.title, year := b.year, isbn := b.isbn,
    author := authorSummary s b.author_id, created_at := some b.created_at }

/-- JSON shape produced by `Author.A_to_dict` (books serialized one level). -/
structure AuthorJson where
  id : Nat
  name : String
  city : String
  books : List BookJson
deriving Repr, DecidableEq

/-- The `Author.books` relationship: all books whose FK points at the author. -/
def Author.ownedBooks (s : Store) (a : Author) : List Book :=
  s.books.filter (fun b => b.author_id == a.id)

/-- `Author.A_to_dict` (app.py lines 66-72). -/
def A_to_dict (s : Store) (a : Author) : AuthorJson :=
  { id := a.id, name := a.name, city := a.city,
    books := (a.ownedBooks s).map (B_to_dict s) }

/-- A JSON response together with its HTTP status code.  Fields absent from a
given handler's payload stay `none`. -/
structure Resp where
  status : Nat
  success : Bool
  error : Option String := none
  message : Option String := none
  book : Option BookJson := none
  books : Option (List BookJson) := none
  authors : Option (List AuthorJson) := none
  count : Option Nat := none
  page : Option Int := none
  per_page : Option Int := none
  total_items : Option Nat := none
  total_pages : Option Nat := none
  sort : Option String := none
  order : Option String := none
deriving Repr, DecidableEq

/-- An unhandled Python exception escaping a handler. -/
inductive PyExc where
  | keyError (key : String)
deriving Repr, DecidableEq

/-- The UNIQUE constraints the database checks at `db.session.commit()`:
all non-NULL `isbn` values distinct, all `name` values distinct. -/
def commitOk (s : Store) : Bool :=
  decide ((s.books.filterMap Book.isbn).Nodup ∧ (s.authors.map Author.name).Nodup)

/-- The HTTP 500 produced when `commit()` raises an IntegrityError. -/
def serverError : Resp := { status := 500, success := false }

/-- Python truthiness of an optional JSON string (absent, null and the empty
string are all falsy, as under `data.get(k)`). -/
def truthy (o : Option String) : Bool :=
  match o with
  | none => false
  | some v => !(v == "")

/-- The JSON body of a POST /api/books request; `none` in a field stands for
an absent (or null) key. -/
structure CreateBookPayload where
  title : Option String := none
  year : Option Int := none
  isbn : Option String := none
  author_id : Option Nat := none
deriving Repr, DecidableEq

/-- Python emptiness of the payload dict, `if not data`. -/
def CreateBookPayload.isEmptyDict (d : CreateBookPayload) : Bool :=
  d.title == none && d.year == none && d.isbn == none && d.author_id == none

/-- The next auto-increment PK for `book` (SQLite: one more than the max). -/
def freshBookId (s : Store) : Nat :=
  (s.books.foldl (fun m b => max m b.id) 0) + 1

/-- Handler `create_book` (app.py lines 109-146), `POST /api/books`.
`data = none` models a request with no JSON body; `now` is the timestamp
supplied by `datetime.utcnow`.  `data['author_id']` on a payload without the
key raises `KeyError`, hence the `Except`. -/
def create_book (s : Store) (data : Option CreateBookPayload) (now : Nat) :
    Except PyExc (Resp × Store) :=
  match data with
  | none => .ok ({ status := 400, success := false, error := some "No data provided" }, s)
  | some d =>
    if d.isEmptyDict then
      .ok ({ status := 400, success := false, error := some "No data provided" }, s)
    else if !(truthy d.title) then
      .ok ({ status := 400, success := false, error := some "Title required" }, s)
    else
      match d.author_id with
      | none => .error (.keyError "author_id")
      | some aid =>
        match s.authors.find? (fun a => a.id == aid) with
        | none => .ok ({ status := 404, success := false, error := some "Author not found" }, s)
        | some _ =>
          if truthy d.isbn && s.books.any (fun b => b.isbn == d.isbn) then
            .ok ({ status := 400, success := false, error := some "ISBN already exists" }, s)
          else
            let nb : Book :=
              { id := freshBookId s, title := d.title.getD "", year := d.year,
                isbn := d.isbn, created_at := now, author_id := aid }
            let s' : Store := { s with books := s.books ++ [nb] }
            if commitOk s' then
              .ok ({ status := 201, success := true,
                     message := some "Book created successfully",
                     book := some (B_to_dict s' nb) }, s')
            else
              .ok (serverError, s)

/-- Handler `get_book` (app.py lines 92-105), `GET /api/books/<id>`. -/
def get_book (s : Store) (id : Nat) : Resp :=
  match s.books.find? (fun b => b.id == id) with
  | none => { status := 404, success := false, error := some "Book not found" }
  | some b => { status := 200, success := true, book := some (B_to_dict s b) }

/-- The JSON body of a PUT /api/books/<id> request.  The outer `Option` is
key presence (`'title' in data`); for the nullable columns the inner value may
itself be null.  The `author` key is accepted by the handler but assigned to a
plain (non-column) attribute, so it changes no stored field. -/
structure UpdateBookPayload where
  title : Option String := none
  author : Option String := none
  year : Option (Option Int) := none
  isbn : Option (Option String) := none
deriving Repr, DecidableEq

/-- Python emptiness of the update dict, `if not data`. -/
def UpdateBookPayload.isEmptyDict (d : UpdateBookPayload) : Bool :=
  d.title == none && d.author == none && d.year == none && d.isbn == none

/-- The column assignments of `update_book` applied to one row. -/
def applyBookUpdate (d : UpdateBookPayload) (b : Book) : Book :=
  { b with title := d.title.getD b.title,
           year := d.year.getD b.year,
           isbn := d.isbn.getD b.isbn }

/-- Handler `update_book` (app.py lines 150-178), `PUT /api/books/<id>`. -/
def update_book (s : Store) (id : Nat) (data : Option UpdateBookPayload) :
    Resp × Store :=
  match s.books.find? (fun b => b.id == id) with
  | none => ({ status := 404, success := false, error := some "Book not found" }, s)
  | some b =>
    match data with
    | none => ({ status := 400, success := false, error := some "No data provided" }, s)
    | some d =>
      if d.isEmptyDict then
        ({ status := 400, success := false, error := some "No data provided" }, s)
      else
        let b' := applyBookUpdate d b
        let s' : Store := { s with books := s.books.map (fun c => if c.id == id then b' else c) }
        if commitOk s' then
          ({ status := 200, success := true,
             message := some "Book updated successfully",
             book := some (B_to_dict s' b') }, s')
        else
          (serverError, s)

/-- Handler `delete_author` (app.py lines 294-307), `DELETE /api/authors/<id>`.
The relationship `Author.books` carries `cascade='all, delete-orphan'`
(lines 61-65): deleting the author also deletes every book it owns. -/
def delete_author (s : Store) (id : Nat) : Resp × Store :=
  match s.authors.find? (fun a => a.id == id) with
  | none => ({ status := 404, success := false, error := some "Author not found" }, s)
  | some _ =>
    let s' : Store := { authors := s.authors.filter (fun a => !(a.id == id)),
                        books := s.books.filter (fun b => !(b.author_id == id)) }
    if commitOk s' then
      ({ status := 200, success := true, message := some "Author deleted successfully" }, s')
    else
      (serverError, s)

/-- Case-insensitive substring test, the semantics of SQL
`column ILIKE '%pat%'` as built at lines 347/351/355 (no wildcard characters
in the pattern considered). -/
def charsAt : List Char → List Char → Bool
  | [], _ => true
  | _ :: _, [] => false
  | a :: as, b :: bs => a == b && charsAt as bs

/-- Substring containment on character lists. -/
def charsContain (needle : List Char) : List Char → Bool
  | [] => needle.isEmpty
  | c :: rest => charsAt needle (c :: rest) || charsContain needle rest

/-- Python `str.lower()` and SQL case folding (character-wise ASCII
lowercasing). -/
def lower (s : String) : String :=
  ⟨s.data.map Char.toLower⟩

/-- The ILIKE '%pat%' match on strings. -/
def ilike (pat field : String) : Bool :=
  charsContain (lower pat).toList (lower field).toList

/-- Handler `search_authors` (app.py lines 341-363),
`GET /api/authors/search?name=&city=&title=`.  The handler starts from
`Author.query.join(Book)` — an inner join applied unconditionally — so an
author appears exactly when it owns at least one book satisfying the title
filter (every filter is skipped when its query parameter is absent or empty,
`if name:` etc.).  The legacy Query deduplicates the joined entity rows, so
each matching author is listed once, in table order. -/
def search_authors (s : Store) (name city title : Option String) : Resp :=
  let found := s.authors.filter (fun a =>
    (!(truthy name) || ilike (name.getD "") a.name) &&
    (!(truthy city) || ilike (city.getD "") a.city) &&
    s.books.any (fun b =>
      b.author_id == a.id && (!(truthy title) || ilike (title.getD "") b.title)))
  { status := 200, success := true, count := some found.length,
    authors := some (found.map (A_to_dict s)) }

/-- Books in ascending `id` order, `Book.query.order_by(Book.id.asc())`. -/
def booksByIdAsc (s : Store) : List Book :=
  s.books.mergeSort (fun a b => a.id ≤ b.id)

/-- Handler `get_books_paginated` (app.py lines 368-388),
`GET /api/books/paginated?page=&per_page=`.  `request.args.get(_, default,
type=int)` yields the default when the parameter is absent or unparsable
(modelled by `none`).  `paginate(error_out=False)` replaces a page below 1
by 1 and a per_page below 1 by 20, returns the slice of the ordered rows,
`total` the row count and `pages = ceil(total / per_page)`.  The response
echoes the raw `page`/`per_page` variables. -/
def get_books_paginated (s : Store) (pageArg perPageArg : Option Int) : Resp :=
  let page := pageArg.getD 1
  let per_page := perPageArg.getD 5
  let p := if page < 1 then 1 else page
  let pp := if per_page < 1 then 20 else per_page
  let items := ((booksByIdAsc s).drop ((p - 1).toNat * pp.toNat)).take pp.toNat
  let total := s.books.length
  { status := 200, success := true, page := some page, per_page := some per_page,
    total_items := some total,
    total_pages := some ((total + pp.toNat - 1) / pp.toNat),
    books := some (items.map (B_to_dict s)) }

/-- The sortable columns, the keys of the `allowed_sorts` dict
(app.py lines 401-407). -/
inductive SortCol where
  | id | title | year | isbn | created_at
deriving Repr, DecidableEq

/-- The `allowed_sorts` dict lookup: `allowed_sorts.get(sort_field, Book.id)`
falls back to `Book.id` on an unknown key. -/
def allowed_sorts (f : String) : Option SortCol :=
  if f == "id" then some .id
  else if f == "title" then some .title
  else if f == "year" then some .year
  else if f == "isbn" then some .isbn
  else if f == "created_at" then some .created_at
  else none

/-- SQLite ordering on a nullable integer column: NULL sorts before every
value. -/
def optIntLe : Option Int → Option Int → Bool
  | none, _ => true
  | some _, none => false
  | some x, some y => x ≤ y

/-- SQLite ordering on a nullable text column: NULL sorts before every
value. -/
def optStrLe : Option String → Option String → Bool
  | none, _ => true
  | some _, none => false
  | some x, some y => x ≤ y

/-- The ascending comparison for one sortable column. -/
def colLe : SortCol → Book → Book → Bool
  | .id, a, b => a.id ≤ b.id
  | .title, a, b => a.title ≤ b.title
  | .year, a, b => optIntLe a.year b.year
  | .isbn, a, b => optStrLe a.isbn b.isbn
  | .created_at, a, b => a.created_at ≤ b.created_at

/-- Handler `get_books_sorted` (app.py lines 394-426),
`GET /api/books/sorted?sort=&order=`.  Defaults: `sort='id'`, `order='asc'`.
The sort column comes from the allow-list with fallback `Book.id`; the
direction is descending exactly when `order.lower() == 'desc'`. -/
def get_books_sorted (s : Store) (sortArg orderArg : Option String) : Resp :=
  let sort_field := sortArg.getD "id"
  let order := orderArg.getD "asc"
  let col := (allowed_sorts sort_field).getD .id
  let cmp := if lower order == "desc"
             then fun a b => colLe col b a
             else fun a b => colLe col a b
  let books := s.books.mergeSort cmp
  { status := 200, success := true, sort := some sort_field, order := some order,
    count := some books.length, books := some (books.map (B_to_dict s)) }

/-- Invariant of every store state reachable through the API: primary keys
are distinct in each table, the declared UNIQUE constraints hold, and every
book's FK resolves (books are only created against an existing author and
author deletion cascades). -/
def WF (s : Store) : Prop :=
  (s.books.map Book.id).Nodup ∧
  (s.authors.map Author.id).Nodup ∧
  (s.books.filterMap Book.isbn).Nodup ∧
  (s.authors.map Author.name).Nodup ∧
  ∀ b ∈ s.books, ∃ a ∈ s.authors, a.id = b.author_id

instance (s : Store) : Decidable (WF s) := by
  unfold WF; infer_instance

/-- All non-NULL isbn values are pairwise distinct (the UNIQUE constraint). -/
def isbnsDistinct (s : Store) : Prop :=
  (s.books.filterMap Book.isbn).Nodup

instance (s : Store) : Decidable (isbnsDistinct s) := by
  unfold isbnsDistinct; infer_instance

/-! Concrete stores and payloads used to instantiate the theorems. -/

/-- A one-author, no-book store. -/
def oneAuthorStore : Store :=
  { authors := [{ id := 1, name := "Eric Matthes", city := "New York" }], books := [] }

/-- A store with one author owning one book with isbn `978-1`. -/
def oneBookStore : Store :=
  { authors := [{ id := 1, name := "Eric Matthes", city := "New York" }],
    books := [{ id := 1, title := "Python Crash Course", year := some 2019,
                isbn := some "978-1", created_at := 0, author_id := 1 }] }

/-- A store with two distinct-isbn books by the same author. -/
def twoBookStore : Store :=
  { authors := [{ id := 1, name := "Eric Matthes", city := "New York" }],
    books := [{ id := 1, title := "Python Crash Course", year := some 2019,
                isbn := some "978-1", created_at := 0, author_id := 1 },
              { id := 2, title := "Flask Web Development", year := some 2018,
                isbn := some "978-2", created_at := 0, author_id := 1 }] }

/-- Two authors, three books, both books of author 1 distinct from author 2's. -/
def cascadeStore : Store :=
  { authors := [{ id := 1, name := "Eric Matthes", city := "New York" },
                { id := 2, name := "Miguel Grinberg", city := "Washington" }],
    books := [{ id := 1, title := "Python Crash Course", year := some 2019,
                isbn := none, created_at := 0, author_id := 1 },
              { id := 2, title := "Python Flash Cards", year := some 2018,
                isbn := none, created_at := 0, author_id := 1 },
              { id := 3, title := "Flask Web Development", year := some 2018,
                isbn := none, created_at := 0, author_id := 2 }] }

/-- Two authors, the second owning no book. -/
def bookless : Store :=
  { authors := [{ id := 1, name := "Eric Matthes", city := "New York" },
                { id := 2, name := "Miguel Grinberg", city := "Washington" }],
    books := [{ id := 1, title := "Python Crash Course", year := some 2019,
                isbn := none, created_at := 0, author_id := 1 }] }

/-- One author owning twelve books with ids 1..12. -/
def twelveBookStore : Store :=
  { authors := [{ id := 1, name := "Eric Matthes", city := "New York" }],
    books := (List.range 12).map (fun i =>
      { id := i + 1, title := "Python Crash Course", year := some 2019,
        isbn := none, created_at := 0, author_id := 1 }) }

/-- One author, three books with years out of order (one year NULL). -/
def yearStore : Store :=
  { authors := [{ id := 1, name := "Eric Matthes", city := "New York" }],
    books := [{ id := 1, title := "A", year := some 2008, isbn := none,
                created_at := 0, author_id := 1 },
              { id := 2, title := "B", year := some 2019, isbn := none,
                created_at := 0, author_id := 1 },
              { id := 3, title := "C", year := none, isbn := none,
                created_at := 0, author_id := 1 }] }

/-- Payload and result stores instantiating the uniqueness invariant. -/
def c5payload : CreateBookPayload :=
  { title := some "Clean Code", isbn := some "978-3", author_id := some 1 }

/-- The store produced by a successful create on `oneBookStore`. -/
def c5created : Store :=
  { authors := oneBookStore.authors,
    books := oneBookStore.books ++
      [{ id := 2, title := "Clean Code", year := none, isbn := some "978-3",
         created_at := 5, author_id := 1 }] }

/-- The store produced by a successful isbn update on `twoBookStore`. -/
def c5updated : Store :=
  { authors := twoBookStore.authors,
    books := [{ id := 1, title := "Python Crash Course", year := some 2019,
                isbn := some "978-1", created_at := 0, author_id := 1 },
              { id := 2, title := "Flask Web Development", year := some 2018,
                isbn := some "978-9", created_at := 0, author_id := 1 }] }

/-- The single book of the `bookless` store, owned by author 1. -/
def ericBook : Book :=
  { id := 1, title := "Python Crash Course", year := some 2019,
    isbn := none, created_at := 0, author_id := 1 }

/-- The book with id 2 in `twoBookStore`. -/
def flaskBook : Book :=
  { id := 2, title := "Flask Web Development", year := some 2018,
    isbn := some "978-2", created_at := 0, author_id := 1 }

/-- A partial update setting title and year only. -/
def c4payload : UpdateBookPayload :=
  { title := some "Flask Web Development 2e", year := some (some 2023) }

/-- A valid create payload against `oneAuthorStore`. -/
def c1payload : CreateBookPayload :=
  { title := some "Clean Code", year := some 2008, isbn := some "978-7",
    author_id := some 1 }

/-! Theorems -/

/-- The base of the running maximum is a lower bound of its result. -/
theorem base_le_foldl_max :
    ∀ (l : List Book) (a : Nat), a ≤ l.foldl (fun m x => max m x.id) a := by
  intro l
  induction l with
  | nil => intro a; exact Nat.le_refl a
  | cons c rest ih =>
    intro a
    exact Nat.le_trans (Nat.le_max_left a c.id) (ih (max a c.id))

/-- Every id in the list is bounded by the running maximum. -/
theorem id_le_foldl_max :
    ∀ (l : List Book) (a : Nat), ∀ b ∈ l, b.id ≤ l.foldl (fun m x => max m x.id) a := by
  intro l
  induction l with
  | nil => intro a b hb; simp at hb
  | cons c rest ih =>
    intro a b hb
    rcases List.mem_cons.mp hb with rfl | hb'
    · exact Nat.le_trans (Nat.le_max_right a b.id) (base_le_foldl_max rest (max a b.id))
    · exact ih (max a c.id) b hb'

/-- The auto-increment id is fresh: no stored book carries it. -/
theorem freshBookId_not_mem (s : Store) : ∀ b ∈ s.books, b.id ≠ freshBookId s := by
  intro b hb
  exact Nat.ne_of_lt (Nat.lt_succ_of_le (id_le_foldl_max s.books 0 b hb))

/-- C1: for every well-formed store and every create-book payload with a
non-empty title, an author_id referencing an existing Author, and an isbn
absent or unused by every stored Book, Create Book returns 201 with the new
record, and Get Book on the new record's id returns 200 with exactly the
same serialized record (hence identical title, year, isbn and author
fields). -/
theorem C1_create_then_get_roundtrip (s : Store) (d : CreateBookPayload)
    (now : Nat) (aid : Nat) (hwf : WF s)
    (ht : truthy d.title = true)
    (ha : d.author_id = some aid)
    (hauth : (s.authors.find? (fun a => a.id == aid)).isSome = true)
    (hfresh : ∀ v, d.isbn = some v → ∀ b ∈ s.books, b.isbn ≠ some v) :
    ∃ r s' j, create_book s (some d) now = .ok (r, s') ∧
      r.status = 201 ∧ r.success = true ∧ r.book = some j ∧
      (get_book s' j.id).status = 200 ∧ (get_book s' j.id).success = true ∧
      (get_book s' j.id).book = some j := by
  obtain ⟨t, hts, htne⟩ : ∃ t, d.title = some t ∧ (t == "") = false := by
    cases h : d.title with
    | none => rw [h] at ht; simp [truthy] at ht
    | some t => exact ⟨t, rfl, by simpa [truthy, h] using ht⟩
  have htt : truthy (some t) = true := hts ▸ ht
  obtain ⟨a, hfa⟩ : ∃ a, s.authors.find? (fun a => a.id == aid) = some a :=
    Option.isSome_iff_exists.mp hauth
  have hdup : (truthy d.isbn && s.books.any fun b => b.isbn == d.isbn) = false := by
    cases hisbn : d.isbn with
    | none => simp [truthy]
    | some v =>
      have hnone : (s.books.any fun b => b.isbn == some v) = false := by
        rw [List.any_eq_false]
        intro b hb
        simpa using hfresh v hisbn b hb
      simp [hnone]
  have hco : commitOk ⟨s.authors, s.books ++ [({ id := freshBookId s, title := t, year := d.year, isbn := d.isbn, created_at := now, author_id := aid } : Book)]⟩ = true := by
    apply decide_eq_true
    refine ⟨?_, hwf.2.2.2.1⟩
    show ((s.books ++ [({ id := freshBookId s, title := t, year := d.year, isbn := d.isbn, created_at := now, author_id := aid } : Book)]).filterMap Book.isbn).Nodup
    rw [List.filterMap_append]
    cases hisbn : d.isbn with
    | none => simpa using hwf.2.2.1
    | some v =>
      rw [List.nodup_append]
      refine ⟨hwf.2.2.1, by simp, ?_⟩
      intro x hx hx'
      have hxv : x = v := by simpa using hx'
      obtain ⟨b, hb, hbv⟩ := List.mem_filterMap.mp hx
      exact hfresh v hisbn b hb (hxv ▸ hbv)
  have hget : (s.books ++ [({ id := freshBookId s, title := t, year := d.year, isbn := d.isbn, created_at := now, author_id := aid } : Book)]).find? (fun b => b.id == freshBookId s) = some { id := freshBookId s, title := t, year := d.year, isbn := d.isbn, created_at := now, author_id := aid } := by
    rw [List.find?_append]
    have h1 : s.books.find? (fun b => b.id == freshBookId s) = none := by
      rw [List.find?_eq_none]
      intro x hx
      simpa using freshBookId_not_mem s x hx
    rw [h1]
    simp
  refine ⟨{ status := 201, success := true, message := some "Book created successfully", book := some (B_to_dict ⟨s.authors, s.books ++ [({ id := freshBookId s, title := t, year := d.year, isbn := d.isbn, created_at := now, author_id := aid } : Book)]⟩ { id := freshBookId s, title := t, year := d.year, isbn := d.isbn, created_at := now, author_id := aid }) },
          ⟨s.authors, s.books ++ [({ id := freshBookId s, title := t, year := d.year, isbn := d.isbn, created_at := now, author_id := aid } : Book)]⟩,
          B_to_dict ⟨s.authors, s.books ++ [({ id := freshBookId s, title := t, year := d.year, isbn := d.isbn, created_at := now, author_id := aid } : Book)]⟩ { id := freshBookId s, title := t, year := d.year, isbn := d.isbn, created_at := now, author_id := aid },
          ?_, rfl, rfl, rfl, ?_, ?_, ?_⟩
  · simp only [create_book, CreateBookPayload.isEmptyDict, hts, htt, ha, hfa, hdup,
      Bool.false_eq_true, if_false, Bool.not_true, Option.getD_some]
    rw [if_neg (by simp), if_pos hco]
  · simp only [get_book, B_to_dict]
    rw [hget]
  · simp only [get_book, B_to_dict]
    rw [hget]
  · simp only [get_book, B_to_dict]
    rw [hget]

/-- C1 witness: the create/get round trip on a concrete store and payload. -/
theorem C1_witness :
    ∃ r s' j, create_book oneAuthorStore (some c1payload) 3 = .ok (r, s') ∧
      r.status = 201 ∧ r.success = true ∧ r.book = some j ∧
      (get_book s' j.id).status = 200 ∧ (get_book s' j.id).success = true ∧
      (get_book s' j.id).book = some j :=
  C1_create_then_get_roundtrip oneAuthorStore c1payload 3 1 (by decide)
    (by decide) rfl (by decide) (by intro v hv; simp [oneAuthorStore])

/-- Replacing the isbn of the unique row with id `idv` by `w` keeps the
non-NULL isbn values distinct, provided `w` duplicates no other row's isbn. -/
theorem nodup_isbn_replace (idv : Nat) (w : Option String) :
    ∀ l : List Book, (l.map Book.id).Nodup → (l.filterMap Book.isbn).Nodup →
      (∀ v, w = some v → ∀ c ∈ l, c.id ≠ idv → c.isbn ≠ some v) →
      (l.filterMap (fun c => if c.id == idv then w else c.isbn)).Nodup := by
  intro l
  induction l with
  | nil => intro _ _ _; simp
  | cons c rest ih =>
    intro hid hnd hnew
    rw [List.map_cons, List.nodup_cons] at hid
    obtain ⟨hcnotin, hidr⟩ := hid
    have hndr : (rest.filterMap Book.isbn).Nodup :=
      List.Nodup.sublist (List.Sublist.filterMap _ (List.sublist_cons_self c rest)) hnd
    by_cases hc : c.id == idv
    · have hcid : c.id = idv := by simpa using hc
      have hrest_ne : ∀ x ∈ rest, (x.id == idv) = false := by
        intro x hx
        have hxne : x.id ≠ c.id := by
          intro he
          exact hcnotin (he ▸ List.mem_map_of_mem Book.id hx)
        simp [hcid ▸ hxne]
      have htail : rest.filterMap (fun x => if x.id == idv then w else x.isbn)
          = rest.filterMap Book.isbn :=
        List.filterMap_congr (fun x hx => by simp [hrest_ne x hx])
      have hstep : (c :: rest).filterMap (fun x => if x.id == idv then w else x.isbn)
          = w.toList ++ rest.filterMap Book.isbn := by
        rw [List.filterMap_cons, htail]
        simp only [hc, if_true]
        cases w <;> simp
      rw [hstep]
      cases hw : w with
      | none => simpa using hndr
      | some v =>
        refine List.nodup_cons.mpr ⟨?_, hndr⟩
        intro hmem
        obtain ⟨x, hx, hfx⟩ := List.mem_filterMap.mp hmem
        have hxne : x.id ≠ idv := by simpa using hrest_ne x hx
        exact hnew v hw x (List.mem_cons_of_mem c hx) hxne hfx
    · have hcne : c.id ≠ idv := by simpa using hc
      have htail := ih hidr hndr
        (fun v hv x hx hxne => hnew v hv x (List.mem_cons_of_mem c hx) hxne)
      have hstep : (c :: rest).filterMap (fun x => if x.id == idv then w else x.isbn)
          = c.isbn.toList ++ rest.filterMap (fun x => if x.id == idv then w else x.isbn) := by
        rw [List.filterMap_cons]
        simp only [hc, if_false, Bool.false_eq_true]
        cases c.isbn <;> simp
      rw [hstep]
      cases hcb : c.isbn with
      | none => simpa using htail
      | some u =>
        refine List.nodup_cons.mpr ⟨?_, htail⟩
        intro hmem
        obtain ⟨x, hx, hfx⟩ := List.mem_filterMap.mp hmem
        by_cases hxid : x.id == idv
        · have hwu : w = some u := by simpa [hxid] using hfx
          exact hnew u hwu c (List.mem_cons_self c rest) hcne hcb
        · have hxisbn : x.isbn = some u := by simpa [hxid] using hfx
          have hndc := hnd
          rw [List.filterMap_cons_some hcb] at hndc
          exact (List.nodup_cons.mp hndc).1 (List.mem_filterMap.mpr ⟨x, hx, hxisbn⟩)

/-- After replacing the row with id `idv` by the updated row, `find?` by id
returns the updated row. -/
theorem find?_books_after_update (idv : Nat) (b' : Book) (hb' : b'.id = idv) :
    ∀ (l : List Book) (b : Book), l.find? (fun c => c.id == idv) = some b →
      (l.map (fun c => if c.id == idv then b' else c)).find?
          (fun c => c.id == idv) = some b' := by
  intro l
  induction l with
  | nil => intro b h; simp at h
  | cons c rest ih =>
    intro b h
    by_cases hc : c.id == idv
    · simp only [List.map_cons, if_pos hc]
      rw [List.find?_cons_of_pos (p := fun x : Book => x.id == idv) _ (by simp [hb'])]
    · simp only [List.map_cons, if_neg hc]
      rw [List.find?_cons_of_neg (p := fun x : Book => x.id == idv) _ hc] at h
      rw [List.find?_cons_of_neg (p := fun x : Book => x.id == idv) _ hc]
      exact ih b h

/-- C4 counterexample: book 2 of `twoBookStore` exists and the payload
setting its isbn to book 1's isbn is non-empty, yet Update Book returns a
500 (the UNIQUE constraint rejects the commit) and changes nothing — so the
universally stated claim that every non-empty update on an existing book
applies exactly the present fields fails. -/
theorem C4_counterexample :
    (twoBookStore.books.find? (fun c => c.id == 2)).isSome = true ∧
    UpdateBookPayload.isEmptyDict { isbn := some (some "978-1") } = false ∧
    update_book twoBookStore 2 (some { isbn := some (some "978-1") }) =
      (serverError, twoBookStore) := by
  refine ⟨by decide, by decide, ?_⟩
  rfl

/-- C4 amended: Update Book returns 404 and leaves the store unchanged when
the book is absent, returns 400 and leaves the store unchanged when no
payload or an empty payload is supplied, and otherwise — provided the book's
isbn after applying the payload does not equal the isbn of any other book,
the condition under which the commit succeeds — returns 200 and changes
exactly the fields present in the payload among {title, year, isbn}: the
fields absent from the payload, the id, the created_at timestamp and the
author reference are unchanged, and every other book row is untouched. -/
theorem C4_update_book_frame_amended (s : Store) (id : Nat)
    (data : Option UpdateBookPayload) (hwf : WF s) :
    (s.books.find? (fun c => c.id == id) = none →
       update_book s id data =
         ({ status := 404, success := false, error := some "Book not found" }, s)) ∧
    (∀ b, s.books.find? (fun c => c.id == id) = some b → data = none →
       update_book s id data =
         ({ status := 400, success := false, error := some "No data provided" }, s)) ∧
    (∀ b d, s.books.find? (fun c => c.id == id) = some b → data = some d →
       d.isEmptyDict = true →
       update_book s id data =
         ({ status := 400, success := false, error := some "No data provided" }, s)) ∧
    (∀ b d, s.books.find? (fun c => c.id == id) = some b → data = some d →
       d.isEmptyDict = false →
       (∀ v, d.isbn.getD b.isbn = some v → ∀ c ∈ s.books, c.id ≠ id → c.isbn ≠ some v) →
       ∃ r s', update_book s id data = (r, s') ∧
         r.status = 200 ∧ r.success = true ∧
         s'.authors = s.authors ∧
         s'.books = s.books.map (fun c => if c.id == id then applyBookUpdate d b else c) ∧
         s'.books.find? (fun c => c.id == id) = some (applyBookUpdate d b) ∧
         (applyBookUpdate d b).id = b.id ∧
         (applyBookUpdate d b).created_at = b.created_at ∧
         (applyBookUpdate d b).author_id = b.author_id ∧
         (applyBookUpdate d b).title = d.title.getD b.title ∧
         (applyBookUpdate d b).year = d.year.getD b.year ∧
         (applyBookUpdate d b).isbn = d.isbn.getD b.isbn ∧
         (∀ c ∈ s.books, c.id ≠ id → c ∈ s'.books)) := by
  refine ⟨?_, ?_, ?_, ?_⟩
  · intro hf
    simp [update_book, hf]
  · intro b hf hd
    subst hd
    simp [update_book, hf]
  · intro b d hf hd he
    subst hd
    simp [update_book, hf, he]
  · intro b d hf hd he hconf
    subst hd
    have hbid : b.id = id := by
      have := (List.find?_eq_some.mp hf).1
      simpa using this
    have hisbn : (Book.isbn ∘ fun c => if c.id == id then applyBookUpdate d b else c) =
        fun c => if c.id == id then d.isbn.getD b.isbn else c.isbn := by
      funext c
      by_cases hcid : c.id == id <;> simp [Function.comp, hcid, applyBookUpdate]
    have hco : commitOk
        ⟨s.authors, s.books.map (fun c => if c.id == id then applyBookUpdate d b else c)⟩ = true := by
      apply decide_eq_true
      constructor
      · show ((s.books.map (fun c => if c.id == id then applyBookUpdate d b else c)).filterMap
            Book.isbn).Nodup
        rw [List.filterMap_map, hisbn]
        exact nodup_isbn_replace id (d.isbn.getD b.isbn) s.books hwf.1 hwf.2.2.1 hconf
      · exact hwf.2.2.2.1
    refine ⟨{ status := 200, success := true,
              message := some "Book updated successfully",
              book := some (B_to_dict
                ⟨s.authors, s.books.map (fun c => if c.id == id then applyBookUpdate d b else c)⟩
                (applyBookUpdate d b)) },
            ⟨s.authors, s.books.map (fun c => if c.id == id then applyBookUpdate d b else c)⟩,
            ?_, rfl, rfl, rfl, rfl, ?_, rfl, rfl, rfl, rfl, rfl, rfl, ?_⟩
    · simp only [update_book, hf, he, Bool.false_eq_true, if_false]
      rw [if_pos hco]
    · exact find?_books_after_update id (applyBookUpdate d b) hbid s.books b hf
    · intro c hc hcne
      have : (if c.id == id then applyBookUpdate d b else c) = c := by
        simp [hcne]
      exact this ▸ List.mem_map_of_mem _ hc

/-- C4 witness: a concrete partial update of title and year on book 2 of
`twoBookStore`, leaving isbn, id, created_at and the author reference
unchanged, with the other book untouched. -/
theorem C4_witness :
    ∃ r s', update_book twoBookStore 2 (some c4payload) = (r, s') ∧
      r.status = 200 ∧ r.success = true ∧
      s'.authors = twoBookStore.authors ∧
      s'.books = twoBookStore.books.map
        (fun c => if c.id == 2 then applyBookUpdate c4payload flaskBook else c) ∧
      s'.books.find? (fun c => c.id == 2) = some (applyBookUpdate c4payload flaskBook) ∧
      (applyBookUpdate c4payload flaskBook).id = flaskBook.id ∧
      (applyBookUpdate c4payload flaskBook).created_at = flaskBook.created_at ∧
      (applyBookUpdate c4payload flaskBook).author_id = flaskBook.author_id ∧
      (applyBookUpdate c4payload flaskBook).title = c4payload.title.getD flaskBook.title ∧
      (applyBookUpdate c4payload flaskBook).year = c4payload.year.getD flaskBook.year ∧
      (applyBookUpdate c4payload flaskBook).isbn = c4payload.isbn.getD flaskBook.isbn ∧
      (∀ c ∈ twoBookStore.books, c.id ≠ 2 → c ∈ s'.books) :=
  (C4_update_book_frame_amended twoBookStore 2 (some c4payload) (by decide)).2.2.2
    flaskBook c4payload (by decide) rfl (by decide) (by decide)

/-- C2: deleting an existing author A from a well-formed store succeeds with
200, Get Book returns 404 for every book A owned, the author count drops by
exactly one, the book count drops by exactly the number of books A owned,
and no book whose author reference fails to resolve remains. -/
theorem C2_delete_author_cascade (s : Store) (A : Nat) (hwf : WF s)
    (ha : (s.authors.find? (fun a => a.id == A)).isSome = true) :
    ∃ r s', delete_author s A = (r, s') ∧ r.status = 200 ∧ r.success = true ∧
      (∀ b ∈ s.books, b.author_id = A → (get_book s' b.id).status = 404) ∧
      s'.authors.length + 1 = s.authors.length ∧
      s'.books.length + (s.books.filter (fun b => b.author_id == A)).length
        = s.books.length ∧
      (∀ b ∈ s'.books, ∃ a ∈ s'.authors, a.id = b.author_id) := by
  obtain ⟨a0, hfa⟩ : ∃ a, s.authors.find? (fun a => a.id == A) = some a :=
    Option.isSome_iff_exists.mp ha
  have hco : commitOk ⟨s.authors.filter (fun a => !(a.id == A)),
      s.books.filter (fun b => !(b.author_id == A))⟩ = true := by
    apply decide_eq_true
    constructor
    · exact List.Nodup.sublist
        (List.Sublist.filterMap _ (List.filter_sublist s.books)) hwf.2.2.1
    · exact List.Nodup.sublist
        (List.Sublist.map _ (List.filter_sublist s.authors)) hwf.2.2.2.1
  refine ⟨{ status := 200, success := true, message := some "Author deleted successfully" },
      ⟨s.authors.filter (fun a => !(a.id == A)),
       s.books.filter (fun b => !(b.author_id == A))⟩, ?_, rfl, rfl, ?_, ?_, ?_, ?_⟩
  · simp only [delete_author, hfa]
    rw [if_pos hco]
  · intro b hb hba
    have hnone : (s.books.filter (fun b => !(b.author_id == A))).find?
        (fun c => c.id == b.id) = none := by
      rw [List.find?_eq_none]
      intro x hx
      obtain ⟨hxs, hxp⟩ := List.mem_filter.mp hx
      intro hxb
      have hxid : x.id = b.id := by simpa using hxb
      have hxeq : x = b := List.inj_on_of_nodup_map hwf.1 hxs hb hxid
      rw [hxeq, hba] at hxp
      simp at hxp
    simp [get_book, hnone]
  · obtain ⟨hpa, as, bs, heq, hpre⟩ := List.find?_eq_some.mp hfa
    have ha0 : (a0.id == A) = true := hpa
    have hbs : ∀ x ∈ bs, (x.id == A) = false := by
      intro x hx
      have hnd := hwf.2.1
      rw [heq, List.map_append, List.map_cons, List.nodup_append] at hnd
      have hnotin : a0.id ∉ bs.map Author.id :=
        (List.nodup_cons.mp hnd.2.1).1
      have : x.id ≠ a0.id := by
        intro he
        exact hnotin (he ▸ List.mem_map_of_mem Author.id hx)
      have hA : a0.id = A := by simpa using ha0
      simp [hA ▸ this]
    have hfas : (as.filter (fun a => !(a.id == A))) = as := by
      rw [List.filter_eq_self]
      intro x hx
      simpa using hpre x hx
    have hfbs : (bs.filter (fun a => !(a.id == A))) = bs := by
      rw [List.filter_eq_self]
      intro x hx
      simp [hbs x hx]
    show (s.authors.filter (fun a => !(a.id == A))).length + 1 = s.authors.length
    rw [heq, List.filter_append, hfas, List.filter_cons]
    simp only [ha0, Bool.not_true, Bool.false_eq_true, if_false, hfbs]
    simp [List.length_append]
    omega
  · show (s.books.filter (fun b => !(b.author_id == A))).length
        + (s.books.filter (fun b => b.author_id == A)).length = s.books.length
    rw [← List.countP_eq_length_filter, ← List.countP_eq_length_filter]
    have hsplit := List.length_eq_countP_add_countP
      (fun b : Book => b.author_id == A) s.books
    have hcongr : List.countP (fun a : Book => decide ¬(a.author_id == A) = true)
        s.books = List.countP (fun b : Book => !(b.author_id == A)) s.books := by
      apply List.countP_congr
      intro x _
      by_cases h : x.author_id == A <;> simp [h]
    omega
  · intro b hb
    obtain ⟨hbs, hbp⟩ := List.mem_filter.mp hb
    obtain ⟨a, has, haid⟩ := hwf.2.2.2.2 b hbs
    refine ⟨a, List.mem_filter.mpr ⟨has, ?_⟩, haid⟩
    have hbA : b.author_id ≠ A := by simpa using hbp
    have : a.id ≠ A := by rw [haid]; exact hbA
    simpa using this

/-- C2 witness: deleting author 1 of `cascadeStore`, who owns two of the
three books. -/
theorem C2_witness :
    ∃ r s', delete_author cascadeStore 1 = (r, s') ∧ r.status = 200 ∧
      r.success = true ∧
      (∀ b ∈ cascadeStore.books, b.author_id = 1 → (get_book s' b.id).status = 404) ∧
      s'.authors.length + 1 = cascadeStore.authors.length ∧
      s'.books.length +
        (cascadeStore.books.filter (fun b => b.author_id == 1)).length
        = cascadeStore.books.length ∧
      (∀ b ∈ s'.books, ∃ a ∈ s'.authors, a.id = b.author_id) :=
  C2_delete_author_cascade cascadeStore 1 (by decide) (by decide)

/-- The id-ordered book listing is sorted by ascending id. -/
theorem booksByIdAsc_sorted (s : Store) :
    (booksByIdAsc s).Pairwise (fun a b => a.id ≤ b.id) := by
  unfold booksByIdAsc
  refine List.Pairwise.imp ?_ (List.sorted_mergeSort ?_ ?_ s.books)
  · exact fun h => by simpa using h
  · intro a b c hab hbc
    simp at hab hbc ⊢
    omega
  · intro a b
    simpa using Nat.le_total a.id b.id

/-- The id-ordered book listing has the same length as the table. -/
theorem booksByIdAsc_length (s : Store) :
    (booksByIdAsc s).length = s.books.length :=
  (List.mergeSort_perm s.books _).length_eq

/-- C8: paginated listing defaults to page=1 and per_page=5, always succeeds
and reports the total item count, returns the requested page in ascending id
order, returns an empty page (with success) for every out-of-range page, and
on a 12-book store with per_page=5 reports total_pages=3, two items on page 3
and an empty page 4. -/
theorem C8_pagination_spec (s : Store) :
    ((get_books_paginated s none none).page = some 1 ∧
     (get_books_paginated s none none).per_page = some 5 ∧
     get_books_paginated s none none = get_books_paginated s (some 1) (some 5)) ∧
    (∀ pageArg perPageArg, ∃ bs,
       (get_books_paginated s pageArg perPageArg).books = some bs ∧
       bs.Pairwise (fun x y => x.id ≤ y.id) ∧
       (get_books_paginated s pageArg perPageArg).total_items = some s.books.length ∧
       (get_books_paginated s pageArg perPageArg).success = true) ∧
    (∀ page pp : Int, 1 ≤ page → 1 ≤ pp →
       s.books.length ≤ (page - 1).toNat * pp.toNat →
       (get_books_paginated s (some page) (some pp)).books = some [] ∧
       (get_books_paginated s (some page) (some pp)).success = true) ∧
    (s.books.length = 12 →
       (get_books_paginated s (some 3) (some 5)).total_pages = some 3 ∧
       (∃ bs, (get_books_paginated s (some 3) (some 5)).books = some bs ∧
          bs.length = 2) ∧
       (get_books_paginated s (some 4) (some 5)).books = some [] ∧
       (get_books_paginated s (some 4) (some 5)).success = true) := by
  refine ⟨⟨rfl, rfl, rfl⟩, ?_, ?_, ?_⟩
  · intro pageArg perPageArg
    refine ⟨_, rfl, ?_, rfl, rfl⟩
    refine List.Pairwise.map _ (fun a b h => h) ?_
    exact List.Pairwise.sublist
      (List.take_sublist _ _)
      (List.Pairwise.sublist (List.drop_sublist _ _) (booksByIdAsc_sorted s))
  · intro page pp h1 h2 hlen
    have hdrop : (booksByIdAsc s).drop ((page - 1).toNat * pp.toNat) = [] :=
      List.drop_eq_nil_of_le (by rw [booksByIdAsc_length]; exact hlen)
    constructor
    · simp only [get_books_paginated, Option.getD_some]
      rw [if_neg (by omega), if_neg (by omega), hdrop]
      simp
    · rfl
  · intro h12
    have hlen3 : (booksByIdAsc s).length = 12 := by
      rw [booksByIdAsc_length, h12]
    refine ⟨?_, ⟨_, rfl, ?_⟩, ?_, rfl⟩
    · simp [get_books_paginated, h12]
    · show ((((booksByIdAsc s).drop (((3:Int) - 1).toNat * (5:Int).toNat)).take
          (5:Int).toNat).map (B_to_dict s)).length = 2
      rw [List.length_map, List.length_take, List.length_drop, hlen3]
      decide
    · have hdrop : (booksByIdAsc s).drop (((4:Int) - 1).toNat * (5:Int).toNat) = [] :=
        List.drop_eq_nil_of_le (by rw [hlen3]; decide)
      simp only [get_books_paginated, Option.getD_some]
      rw [if_neg (by omega), if_neg (by omega), hdrop]
      simp

/-- C8 witness: the pagination facts evaluated on the concrete 12-book
store. -/
theorem C8_witness :
    (get_books_paginated twelveBookStore none none).page = some 1 ∧
    (get_books_paginated twelveBookStore none none).per_page = some 5 ∧
    (∃ bs, (get_books_paginated twelveBookStore (some 2) (some 5)).books = some bs ∧
       bs.Pairwise (fun x y => x.id ≤ y.id) ∧
       (get_books_paginated twelveBookStore (some 2) (some 5)).total_items
         = some twelveBookStore.books.length ∧
       (get_books_paginated twelveBookStore (some 2) (some 5)).success = true) ∧
    (get_books_paginated twelveBookStore (some 5) (some 5)).books = some [] ∧
    (get_books_paginated twelveBookStore (some 3) (some 5)).total_pages = some 3 ∧
    (∃ bs, (get_books_paginated twelveBookStore (some 3) (some 5)).books = some bs ∧
       bs.length = 2) :=
  ⟨(C8_pagination_spec twelveBookStore).1.1,
   (C8_pagination_spec twelveBookStore).1.2.1,
   (C8_pagination_spec twelveBookStore).2.1 (some 2) (some 5),
   ((C8_pagination_spec twelveBookStore).2.2.1 5 5 (by decide) (by decide)
      (by decide)).1,
   ((C8_pagination_spec twelveBookStore).2.2.2 (by decide)).1,
   ((C8_pagination_spec twelveBookStore).2.2.2 (by decide)).2.1⟩

/-- Transitivity of the NULL-smallest ordering on a nullable int column. -/
theorem optIntLe_trans : ∀ x y z, optIntLe x y = true → optIntLe y z = true →
    optIntLe x z = true := by
  intro x y z hxy hyz
  cases x <;> cases y <;> cases z <;> simp [optIntLe] at hxy hyz ⊢ <;> omega

/-- Totality of the NULL-smallest ordering on a nullable int column. -/
theorem optIntLe_total : ∀ x y, (optIntLe x y || optIntLe y x) = true := by
  intro x y
  cases x <;> cases y <;> simp [optIntLe]
  exact Int.le_total _ _

/-- C9: Sorted Book listing restricts the sort field to the allow-list
{id, title, year, isbn, created_at} and falls back to id for every
unrecognized value; the order parameter acts through its lowercase form
(matching {asc, desc} case-insensitively), every value other than desc
falling back to asc; and sort=year with order=desc yields books in
non-increasing year order (NULL years ordered below all values, as in
SQLite). -/
theorem C9_sorting_spec (s : Store) :
    (∀ f, allowed_sorts f = none → ∀ ord,
       (get_books_sorted s (some f) ord).books
         = (get_books_sorted s (some "id") ord).books) ∧
    (∀ f ord, lower ord ≠ "desc" →
       (get_books_sorted s f (some ord)).books
         = (get_books_sorted s f (some "asc")).books) ∧
    (∀ f ord, lower ord = "desc" →
       (get_books_sorted s f (some ord)).books
         = (get_books_sorted s f (some "desc")).books) ∧
    (∃ bs, (get_books_sorted s (some "year") (some "desc")).books = some bs ∧
       bs.Pairwise (fun x y => optIntLe y.year x.year = true)) := by
  refine ⟨?_, ?_, ?_, ?_⟩
  · intro f hf ord
    simp only [get_books_sorted, Option.getD_some]
    rw [hf]
    rfl
  · intro f ord hord
    have hne : (lower ord == "desc") = false := by simpa using hord
    have hasc : (lower "asc" == "desc") = false := by decide
    simp only [get_books_sorted, Option.getD_some, hne, hasc]
  · intro f ord hord
    have heq : (lower ord == "desc") = true := by simpa using hord
    have hdesc : (lower "desc" == "desc") = true := by decide
    simp only [get_books_sorted, Option.getD_some, heq, hdesc]
  · refine ⟨_, rfl, ?_⟩
    show (((s.books.mergeSort (fun a b => colLe .year b a)).map (B_to_dict s)).Pairwise
      (fun x y => optIntLe y.year x.year = true))
    refine List.Pairwise.map _ (fun a b h => h) ?_
    exact List.sorted_mergeSort
      (fun a b c hab hbc => optIntLe_trans c.year b.year a.year hbc hab)
      (fun a b => optIntLe_total b.year a.year) s.books

/-- C9 witness: the sorting facts evaluated on the concrete three-book
store with out-of-order years. -/
theorem C9_witness :
    ((get_books_sorted yearStore (some "nonsense") none).books
       = (get_books_sorted yearStore (some "id") none).books) ∧
    ((get_books_sorted yearStore none (some "ASC")).books
       = (get_books_sorted yearStore none (some "asc")).books) ∧
    ((get_books_sorted yearStore none (some "DeSc")).books
       = (get_books_sorted yearStore none (some "desc")).books) ∧
    (∃ bs, (get_books_sorted yearStore (some "year") (some "desc")).books = some bs ∧
       bs.Pairwise (fun x y => optIntLe y.year x.year = true)) :=
  ⟨(C9_sorting_spec yearStore).1 "nonsense" (by decide) none,
   (C9_sorting_spec yearStore).2.1 none "ASC" (by decide),
   (C9_sorting_spec yearStore).2.2.1 none "DeSc" (by decide),
   (C9_sorting_spec yearStore).2.2.2⟩

/-- C3 counterexample: in a store holding an author with zero books, a
Search Authors request with no filters at all (hence no title filter) omits
that author — the inner join against Book is applied unconditionally, so the
claim that no-title searches include zero-book authors fails. -/
theorem C3_counterexample :
    ∃ a ∈ bookless.authors, a.ownedBooks bookless = [] ∧
      A_to_dict bookless a ∉ ((search_authors bookless none none none).authors.getD []) := by
  decide

/-- C3 amended: Search Authors joins against owned Books unconditionally:
an author appears in the result if and only if it matches the name and city
filters and owns at least one book passing the title filter (or any book,
when no title filter is supplied); in particular an author with zero books
never appears in any Search Authors result, with or without a title filter,
and an author none of whose books pass a supplied title filter does not
appear either. -/
theorem C3_search_authors_join_amended (s : Store) (name city title : Option String) :
    (∀ a ∈ s.authors,
       A_to_dict s a ∈ ((search_authors s name city title).authors.getD []) ↔
         ((!(truthy name) || ilike (name.getD "") a.name) = true ∧
          (!(truthy city) || ilike (city.getD "") a.city) = true ∧
          ∃ b ∈ s.books, b.author_id = a.id ∧
            (!(truthy title) || ilike (title.getD "") b.title) = true)) ∧
    (∀ a ∈ s.authors, a.ownedBooks s = [] →
       A_to_dict s a ∉ ((search_authors s name city title).authors.getD [])) := by
  constructor
  · intro a ha
    constructor
    · intro hmem
      simp only [search_authors, Option.getD_some] at hmem
      obtain ⟨a', ha'f, ha'eq⟩ := List.mem_map.mp hmem
      have hpred := (List.mem_filter.mp ha'f).2
      simp only [Bool.and_eq_true] at hpred
      have hname : a'.name = a.name := congrArg AuthorJson.name ha'eq
      have hcity : a'.city = a.city := congrArg AuthorJson.city ha'eq
      have hid : a'.id = a.id := congrArg AuthorJson.id ha'eq
      refine ⟨hname ▸ hpred.1.1, hcity ▸ hpred.1.2, ?_⟩
      obtain ⟨b, hb, hbp⟩ := List.any_eq_true.mp hpred.2
      simp only [Bool.and_eq_true] at hbp
      have hba : b.author_id = a'.id := by simpa using hbp.1
      exact ⟨b, hb, hid ▸ hba, hbp.2⟩
    · rintro ⟨hn, hc, b, hb, hba, hbt⟩
      simp only [search_authors, Option.getD_some]
      apply List.mem_map_of_mem
      rw [List.mem_filter]
      refine ⟨ha, ?_⟩
      have hany : (s.books.any fun x => x.author_id == a.id &&
          (!(truthy title) || ilike (title.getD "") x.title)) = true := by
        rw [List.any_eq_true]
        exact ⟨b, hb, by simp [hba, hbt]⟩
      simp [hn, hc, hany]
  · rintro a ha hz hmem
    simp only [search_authors, Option.getD_some] at hmem
    obtain ⟨a', ha'f, ha'eq⟩ := List.mem_map.mp hmem
    have hpred := (List.mem_filter.mp ha'f).2
    simp only [Bool.and_eq_true] at hpred
    obtain ⟨b, hb, hbp⟩ := List.any_eq_true.mp hpred.2
    simp only [Bool.and_eq_true] at hbp
    have hba : b.author_id = a'.id := by simpa using hbp.1
    have hid : a'.id = a.id := congrArg AuthorJson.id ha'eq
    have hbmem : b ∈ a.ownedBooks s := by
      unfold Author.ownedBooks
      rw [List.mem_filter]
      exact ⟨hb, by simp [hba, hid]⟩
    rw [hz] at hbmem
    simp at hbmem

/-- C3 witness: in the concrete `bookless` store under an unfiltered search,
the book-owning author appears and the zero-book author does not; under a
title filter its single book fails, the book-owning author disappears too. -/
theorem C3_witness :
    A_to_dict bookless { id := 1, name := "Eric Matthes", city := "New York" } ∈
      ((search_authors bookless none none none).authors.getD []) ∧
    A_to_dict bookless { id := 2, name := "Miguel Grinberg", city := "Washington" } ∉
      ((search_authors bookless none none none).authors.getD []) ∧
    A_to_dict bookless { id := 1, name := "Eric Matthes", city := "New York" } ∉
      ((search_authors bookless none none (some "clean code")).authors.getD []) :=
  ⟨((C3_search_authors_join_amended bookless none none none).1
      { id := 1, name := "Eric Matthes", city := "New York" } (by decide)).mpr
      ⟨by decide, by decide, ericBook, by decide, rfl, by decide⟩,
   (C3_search_authors_join_amended bookless none none none).2
      { id := 2, name := "Miguel Grinberg", city := "Washington" } (by decide)
      (by decide),
   fun hmem => absurd
     (((C3_search_authors_join_amended bookless none none (some "clean code")).1
        { id := 1, name := "Eric Matthes", city := "New York" } (by decide)).mp hmem)
     (by decide)⟩

/-- A passing commit implies the isbn UNIQUE constraint holds. -/
theorem commitOk_isbn {s : Store} (h : commitOk s = true) : isbnsDistinct s :=
  (of_decide_eq_true h).1

/-- A 201 from `create_book` only arises from the commit branch. -/
theorem create_book_201_commit (s : Store) (d : Option CreateBookPayload)
    (now : Nat) (r : Resp) (s' : Store)
    (h : create_book s d now = .ok (r, s')) (h201 : r.status = 201) :
    commitOk s' = true := by
  cases d with
  | none =>
    simp only [create_book, Except.ok.injEq, Prod.mk.injEq] at h
    rw [← h.1] at h201; simp at h201
  | some d =>
    simp only [create_book] at h
    split at h
    · simp only [Except.ok.injEq, Prod.mk.injEq] at h
      rw [← h.1] at h201; simp at h201
    · split at h
      · simp only [Except.ok.injEq, Prod.mk.injEq] at h
        rw [← h.1] at h201; simp at h201
      · split at h
        · simp at h
        · split at h
          · simp only [Except.ok.injEq, Prod.mk.injEq] at h
            rw [← h.1] at h201; simp at h201
          · split at h
            · simp only [Except.ok.injEq, Prod.mk.injEq] at h
              rw [← h.1] at h201; simp at h201
            · split at h
              · rename_i hco
                simp only [Except.ok.injEq, Prod.mk.injEq] at h
                exact h.2 ▸ hco
              · simp only [Except.ok.injEq, Prod.mk.injEq] at h
                rw [← h.1] at h201; simp [serverError] at h201

/-- A 200 from `update_book` only arises from the commit branch. -/
theorem update_book_200_commit (s : Store) (id : Nat)
    (d : Option UpdateBookPayload) (r : Resp) (s' : Store)
    (h : update_book s id d = (r, s')) (h200 : r.status = 200) :
    commitOk s' = true := by
  simp only [update_book] at h
  split at h
  · simp only [Prod.mk.injEq] at h
    rw [← h.1] at h200; simp at h200
  · cases d with
    | none =>
      simp only [Prod.mk.injEq] at h
      rw [← h.1] at h200; simp at h200
    | some d =>
      simp only [] at h
      split at h
      · simp only [Prod.mk.injEq] at h
        rw [← h.1] at h200; simp at h200
      · split at h
        · rename_i hco
          simp only [Prod.mk.injEq] at h
          exact h.2 ▸ hco
        · simp only [Prod.mk.injEq] at h
          rw [← h.1] at h200; simp [serverError] at h200

/-- C5: in every store whose present isbn values are distinct, every
successful Create Book (status 201) and every successful Update Book
(status 200) yields a store whose present isbn values are again distinct;
a commit that would break the UNIQUE constraint fails instead. -/
theorem C5_isbn_unique_invariant (s : Store) (hs : isbnsDistinct s) :
    (∀ d now r s', create_book s d now = .ok (r, s') → r.status = 201 →
       isbnsDistinct s') ∧
    (∀ id d r s', update_book s id d = (r, s') → r.status = 200 →
       isbnsDistinct s') := by
  constructor
  · intro d now r s' h h201
    exact commitOk_isbn (create_book_201_commit s d now r s' h h201)
  · intro id d r s' h h200
    exact commitOk_isbn (update_book_200_commit s id d r s' h h200)

/-- C5 witness: the invariant evaluated after a concrete successful create
and a concrete successful update. -/
theorem C5_witness : isbnsDistinct c5created ∧ isbnsDistinct c5updated :=
  ⟨(C5_isbn_unique_invariant oneBookStore (by decide)).1
      (some c5payload) 5 _ c5created rfl rfl,
   (C5_isbn_unique_invariant twoBookStore (by decide)).2
      2 (some { isbn := some (some "978-9") }) _ c5updated rfl rfl⟩

/-- C10: a create-book payload with a non-empty title but no `author_id` key
makes the handler raise a `KeyError` on `data['author_id']` instead of
returning a 4xx JSON response: the error branches are not total. -/
theorem C10_missing_author_id_keyerror :
    create_book oneAuthorStore (some { title := some "Clean Code" }) 0 =
      .error (.keyError "author_id") := by
  rfl

/-- C6 counterexample: a payload whose `author_id` (9999) references no
existing author but whose title is missing gets 400 "Title required", not
404 "Author not found" — the title check runs first, so the claim as stated
fails. -/
theorem C6_counterexample :
    (∀ a ∈ oneAuthorStore.authors, a.id ≠ 9999) ∧
    create_book oneAuthorStore (some { author_id := some 9999 }) 0 =
      .ok ({ status := 400, success := false, error := some "Title required" },
           oneAuthorStore) := by
  constructor
  · decide
  · rfl

/-- C6 amended: for every store and every create-book payload with a truthy
title whose `author_id` key is present but references no existing author,
Create Book returns 404 with error "Author not found" and the store is
returned unchanged. -/
theorem C6_author_not_found_amended (s : Store) (d : CreateBookPayload)
    (now : Nat) (aid : Nat)
    (ht : truthy d.title = true)
    (ha : d.author_id = some aid)
    (hn : s.authors.find? (fun a => a.id == aid) = none) :
    create_book s (some d) now =
      .ok ({ status := 404, success := false, error := some "Author not found" }, s) := by
  obtain ⟨t, hts, htne⟩ : ∃ t, d.title = some t ∧ (t == "") = false := by
    cases h : d.title with
    | none => rw [h] at ht; simp [truthy] at ht
    | some t => exact ⟨t, rfl, by simpa [truthy, h] using ht⟩
  have htt : truthy (some t) = true := hts ▸ ht
  simp [create_book, CreateBookPayload.isEmptyDict, hts, htt, ha, hn]

/-- C6 witness: the amended 404 behavior at a concrete store and payload. -/
theorem C6_witness :
    create_book oneAuthorStore (some { title := some "Clean Code", author_id := some 9999 }) 0 =
      .ok ({ status := 404, success := false, error := some "Author not found" },
           oneAuthorStore) :=
  C6_author_not_found_amended oneAuthorStore
    { title := some "Clean Code", author_id := some 9999 } 0 9999
    (by decide) rfl (by decide)

/-- C7 counterexample: a payload whose isbn equals an existing book's isbn
but whose title is missing gets 400 "Title required", not
400 "ISBN already exists" — so the claim as universally stated fails. -/
theorem C7_counterexample :
    (∃ b ∈ oneBookStore.books, b.isbn = some "978-1") ∧
    create_book oneBookStore (some { isbn := some "978-1" }) 0 =
      .ok ({ status := 400, success := false, error := some "Title required" },
           oneBookStore) := by
  constructor
  · decide
  · rfl

/-- C7 amended: for every store and every create-book payload with a truthy
title, an `author_id` referencing an existing author, and a truthy isbn equal
to the isbn of an existing book, Create Book returns 400 with error
"ISBN already exists" and the store (hence the book count) is unchanged. -/
theorem C7_isbn_conflict_amended (s : Store) (d : CreateBookPayload)
    (now : Nat) (aid : Nat)
    (ht : truthy d.title = true)
    (ha : d.author_id = some aid)
    (hf : (s.authors.find? (fun a => a.id == aid)).isSome = true)
    (hi : truthy d.isbn = true)
    (hdup : s.books.any (fun b => b.isbn == d.isbn) = true) :
    create_book s (some d) now =
      .ok ({ status := 400, success := false, error := some "ISBN already exists" }, s) := by
  obtain ⟨t, hts, htne⟩ : ∃ t, d.title = some t ∧ (t == "") = false := by
    cases h : d.title with
    | none => rw [h] at ht; simp [truthy] at ht
    | some t => exact ⟨t, rfl, by simpa [truthy, h] using ht⟩
  have htt : truthy (some t) = true := hts ▸ ht
  obtain ⟨a, hfa⟩ : ∃ a, s.authors.find? (fun a => a.id == aid) = some a :=
    Option.isSome_iff_exists.mp hf
  simp [create_book, CreateBookPayload.isEmptyDict, hts, htt, ha, hfa, hi, hdup]

/-- C7 witness: the amended duplicate-isbn behavior at a concrete store. -/
theorem C7_witness :
    create_book oneBookStore
      (some { title := some "Clean Code", isbn := some "978-1", author_id := some 1 }) 0 =
      .ok ({ status := 400, success := false, error := some "ISBN already exists" },
           oneBookStore) :=
  C7_isbn_conflict_amended oneBookStore
    { title := some "Clean Code", isbn := some "978-1", author_id := some 1 } 0 1
    (by decide) rfl (by decide) (by decide) (by decide)

end Part4
